import Mathlib

/-!
Verification development for the GoodRunss backend core:
the achievement unlock and sharing engine (src/api/integrations/achievements.py)
and the deterministic scoring and recommendation engine
(src/api/integrations/healthkit.py).

Machine integers of the source are modelled as Int, Python floats as Rat
(only comparisons with simple decimal constants occur, which are exact),
fallible endpoints return Except.
-/

namespace GoodRunss

/-! ## Metrics data model (healthkit.py)

HealthMetrics is the pydantic model with five independently optional fields.
In the running program the stored metrics dict built by sync_healthkit_data
always contains all five keys; a metric that was not synced is stored as a
None value, never as a missing key.  `none` below models that stored None,
which is why the dict.get defaults of the source never take effect. -/

structure HealthMetrics where
  heart_rate : Option Int
  steps : Option Int
  active_calories : Option Int
  vo2_max : Option ℚ
  sleep_hours : Option ℚ
deriving DecidableEq, Repr

/-- Python truthiness of an optional int value: None and 0 are falsy. -/
def truthyI : Option Int → Bool
  | none => false
  | some v => v != 0

/-- Python truthiness of an optional float value: None and 0.0 are falsy. -/
def truthyQ : Option ℚ → Bool
  | none => false
  | some v => v != 0

/-! ## calculate_health_score (healthkit.py lines 271-315)

The source mutates a local score through four guarded blocks and caps the
result at 100.  Each block is one definition below; the guard
`if metrics.get("heart_rate"):` is Python truthiness. -/

/-- Heart-rate block of calculate_health_score. -/
def hrStep (m : HealthMetrics) (score : Int) : Int :=
  if truthyI m.heart_rate then
    let hr := m.heart_rate.getD 0
    if hr < 60 then score + 15
    else if hr < 75 then score + 10
    else if hr < 100 then score + 5
    else score
  else score

/-- Steps block of calculate_health_score. -/
def stepsStep (m : HealthMetrics) (score : Int) : Int :=
  if truthyI m.steps then
    let steps := m.steps.getD 0
    if steps ≥ 10000 then score + 15
    else if steps ≥ 7000 then score + 10
    else if steps ≥ 5000 then score + 5
    else score
  else score

/-- Sleep block of calculate_health_score. -/
def sleepStep (m : HealthMetrics) (score : Int) : Int :=
  if truthyQ m.sleep_hours then
    let sleep := m.sleep_hours.getD 0
    if sleep ≥ 8 then score + 10
    else if sleep ≥ 7 then score + 7
    else if sleep ≥ 6 then score + 3
    else score
  else score

/-- VO2-max block of calculate_health_score. -/
def vo2Step (m : HealthMetrics) (score : Int) : Int :=
  if truthyQ m.vo2_max then
    let vo2 := m.vo2_max.getD 0
    if vo2 ≥ 50 then score + 10
    else if vo2 ≥ 40 then score + 7
    else if vo2 ≥ 30 then score + 3
    else score
  else score

/-- calculate_health_score: base 50, four conditional contributions, cap at 100. -/
def calculate_health_score (metrics : HealthMetrics) : Int :=
  min (vo2Step metrics (sleepStep metrics (stepsStep metrics (hrStep metrics 50)))) 100

/-! ## Spec-side scoring definitions (spec section 4.5)

`spec_score` follows the specification text literally: every PRESENT metric
contributes its breakpoint-table bonus, and the total is clamped to 0..100.
`spec_hr_bonus` etc. are the table rows.  The `_truthy` variants are the
amended reading in which a present-but-zero metric contributes nothing
(presence tested by truthiness); they are compared with the source
definition above. -/

/-- Spec table row for heart rate: a present value gets its tier bonus. -/
def spec_hr_bonus : Option Int → Int
  | none => 0
  | some hr => if hr < 60 then 15 else if hr < 75 then 10 else if hr < 100 then 5 else 0

/-- Spec table row for steps. -/
def spec_steps_bonus : Option Int → Int
  | none => 0
  | some st => if st ≥ 10000 then 15 else if st ≥ 7000 then 10 else if st ≥ 5000 then 5 else 0

/-- Spec table row for sleep hours. -/
def spec_sleep_bonus : Option ℚ → Int
  | none => 0
  | some sl => if sl ≥ 8 then 10 else if sl ≥ 7 then 7 else if sl ≥ 6 then 3 else 0

/-- Spec table row for VO2 max. -/
def spec_vo2_bonus : Option ℚ → Int
  | none => 0
  | some v => if v ≥ 50 then 10 else if v ≥ 40 then 7 else if v ≥ 30 then 3 else 0

/-- Literal spec-side score: base 50 plus the bonus of every present metric,
clamped to the interval 0..100. -/
def spec_score (m : HealthMetrics) : Int :=
  max 0 (min (50 + spec_hr_bonus m.heart_rate + spec_steps_bonus m.steps
    + spec_sleep_bonus m.sleep_hours + spec_vo2_bonus m.vo2_max) 100)

/-- Amended table row for heart rate: a zero value is treated as absent. -/
def spec_hr_bonus_truthy : Option Int → Int
  | none => 0
  | some hr =>
      if hr = 0 then 0
      else if hr < 60 then 15 else if hr < 75 then 10 else if hr < 100 then 5 else 0

/-- Amended table row for steps: a zero value is treated as absent. -/
def spec_steps_bonus_truthy : Option Int → Int
  | none => 0
  | some st =>
      if st = 0 then 0
      else if st ≥ 10000 then 15 else if st ≥ 7000 then 10 else if st ≥ 5000 then 5 else 0

/-- Amended table row for sleep hours: a zero value is treated as absent. -/
def spec_sleep_bonus_truthy : Option ℚ → Int
  | none => 0
  | some sl =>
      if sl = 0 then 0
      else if sl ≥ 8 then 10 else if sl ≥ 7 then 7 else if sl ≥ 6 then 3 else 0

/-- Amended table row for VO2 max: a zero value is treated as absent. -/
def spec_vo2_bonus_truthy : Option ℚ → Int
  | none => 0
  | some v =>
      if v = 0 then 0
      else if v ≥ 50 then 10 else if v ≥ 40 then 7 else if v ≥ 30 then 3 else 0

/-- Amended spec-side score: presence tested by truthiness, so a
present-but-zero metric contributes no bonus. -/
def spec_score_truthy (m : HealthMetrics) : Int :=
  max 0 (min (50 + spec_hr_bonus_truthy m.heart_rate + spec_steps_bonus_truthy m.steps
    + spec_sleep_bonus_truthy m.sleep_hours + spec_vo2_bonus_truthy m.vo2_max) 100)

/-! ## generate_training_plan (healthkit.py lines 225-248)

Python semantics that matter here: `sleep = metrics.get("sleep_hours", 0)`
receives the stored None when the metric was never synced (the key is always
present, so the default 0 is dead), and a comparison of None with a number
raises TypeError.  The boolean `and` is short-circuiting.  The embedding
threads the possible TypeError through Except. -/

inductive PyError where
  | typeError
deriving DecidableEq, Repr

/-- Python `x >= c` for an optional float: None raises TypeError. -/
def pyGeQ (x : Option ℚ) (c : ℚ) : Except PyError Bool :=
  match x with
  | none => .error .typeError
  | some v => .ok (decide (c ≤ v))

/-- Python `x < c` for an optional int: None raises TypeError. -/
def pyLtI (x : Option Int) (c : Int) : Except PyError Bool :=
  match x with
  | none => .error .typeError
  | some v => .ok (decide (v < c))

/-- Python short-circuiting `and` over possibly-raising operands. -/
def pyAnd (a : Except PyError Bool) (b : Unit → Except PyError Bool) : Except PyError Bool :=
  match a with
  | .error e => .error e
  | .ok false => .ok false
  | .ok true => b ()

/-- get_suggested_activities (healthkit.py lines 250-269). -/
def get_suggested_activities (intensity : String) : List String :=
  if intensity == "High" then
    ["🏀 Intense basketball scrimmage", "🏃 HIIT training session", "💪 Strength & power workout"]
  else if intensity == "Moderate" then
    ["🏀 Moderate basketball practice", "🏃 Steady-state cardio", "🎯 Skill development drills"]
  else
    ["🏀 Light shooting practice", "🧘 Yoga & stretching", "🚶 Active recovery walk"]

structure TrainingPlan where
  recommended_intensity : String
  message : String
  suggested_activities : List String
  optimal_training_time : String
  duration : String
deriving DecidableEq, Repr

/-- generate_training_plan: intensity classification from sleep and heart
rate, propagating the TypeError a None comparison raises. -/
def generate_training_plan (metrics : HealthMetrics) : Except PyError TrainingPlan :=
  match pyAnd (pyGeQ metrics.sleep_hours 8) (fun _ => pyLtI metrics.heart_rate 60) with
  | .error e => .error e
  | .ok true =>
      .ok ⟨"High", "Your body is well-recovered. Great day for intense training!",
        get_suggested_activities "High", "4:00 PM - 7:00 PM", "45-60 minutes"⟩
  | .ok false =>
      match pyAnd (pyGeQ metrics.sleep_hours 7) (fun _ => pyLtI metrics.heart_rate 75) with
      | .error e => .error e
      | .ok true =>
          .ok ⟨"Moderate", "Good recovery. Stick to your normal training intensity.",
            get_suggested_activities "Moderate", "4:00 PM - 7:00 PM", "45-60 minutes"⟩
      | .ok false =>
          .ok ⟨"Light", "Consider active recovery today. Your body needs rest.",
            get_suggested_activities "Light", "4:00 PM - 7:00 PM", "45-60 minutes"⟩

/-! ## Achievement engine data model (achievements.py, models.py)

The database state visible to the achievement endpoints: user ids, bookings
(user_id, created_at), games (user_id, score) and the user_achievements
ledger.  Timestamps are seconds as Int; `now` is passed explicitly where the
source calls datetime.utcnow(). -/

structure Booking where
  user_id : Int
  created_at : Int
deriving DecidableEq, Repr

structure Game where
  user_id : Int
  score : Int
deriving DecidableEq, Repr

/-- UserAchievement row (models.py lines 142-154). -/
structure UserAchievement where
  user_id : Int
  achievement_key : String
  unlocked_at : Int
  shared : Bool
  shared_platform : Option String
  shared_at : Option Int
deriving DecidableEq, Repr

structure DB where
  users : List Int
  bookings : List Booking
  games : List Game
  user_achievements : List UserAchievement
deriving DecidableEq, Repr

/-- Catalog entry of the ACHIEVEMENTS table (achievements.py lines 19-56). -/
structure AchievementDef where
  name : String
  description : String
  points : Int
  icon : String
  viral_text : String
  reward : Option String
deriving DecidableEq, Repr

/-- The ACHIEVEMENTS catalog, embedded at startup, never mutated. -/
def ACHIEVEMENTS : List (String × AchievementDef) :=
  [("first_booking",
    ⟨"First Steps", "Booked your first training session", 50, "🏆",
      "I just booked my first run via GIA! 🚀", none⟩),
   ("seven_day_streak",
    ⟨"Consistency King", "7-day training streak", 100, "🔥",
      "My 7-day streak unlocked a free session! 🔥", some "Free Training Session"⟩),
   ("quick_court_find",
    ⟨"Court Master", "Found a court in under 30 seconds", 75, "⚡",
      "GIA found me a court in 30 seconds! ⚡", none⟩),
   ("perfect_game",
    ⟨"Perfect Performance", "Achieved a perfect game score", 150, "🎯",
      "Just had a perfect game! 🎯", none⟩),
   ("social_sharer",
    ⟨"Social Butterfly", "Shared 5 achievements", 25, "📱",
      "Leveling up my game with GoodRunss! 📱", none⟩)]

/-- ACHIEVEMENTS.get(key): catalog lookup. -/
def achievementsGet (k : String) : Option AchievementDef :=
  ACHIEVEMENTS.lookup k

/-- Predicate of the ledger query filter: row for (user_id, achievement_key). -/
def matchesRec (uid : Int) (k : String) (ua : UserAchievement) : Bool :=
  ua.user_id == uid && ua.achievement_key == k

/-- The existence query the evaluator runs before inserting. -/
def existsRecord (db : DB) (uid : Int) (k : String) : Bool :=
  db.user_achievements.any (matchesRec uid k)

/-- Number of ledger rows for one (userId, achievementKey) pair. -/
def countRecord (db : DB) (uid : Int) (k : String) : Nat :=
  (db.user_achievements.filter (matchesRec uid k)).length

/-- Total bookings query of check_achievements. -/
def bookingsCount (db : DB) (uid : Int) : Nat :=
  (db.bookings.filter (fun b => b.user_id == uid)).length

/-- Bookings of the last seven days (created_at >= now - 7 days). -/
def recentBookingsCount (db : DB) (uid now : Int) : Nat :=
  (db.bookings.filter (fun b => b.user_id == uid && decide (now - 604800 ≤ b.created_at))).length

/-- Games with a perfect score of 100. -/
def perfectGamesCount (db : DB) (uid : Int) : Nat :=
  (db.games.filter (fun g => g.user_id == uid && g.score == 100)).length

/-- One guarded block of check_achievements: when the fact condition holds
and no ledger row exists for (uid, k), append a fresh row and record the key
in the newly-unlocked accumulator; otherwise leave the state alone. -/
def unlockStep (uid now : Int) (k : String) (cond : Bool) (s : DB × List String) :
    DB × List String :=
  if cond then
    if existsRecord s.1 uid k then s
    else
      ({s.1 with user_achievements :=
          s.1.user_achievements ++ [⟨uid, k, now, false, none, none⟩]},
        s.2 ++ [k])
  else s

structure HTTPError where
  status_code : Int
  detail : String
deriving DecidableEq, Repr

/-- One element of the new_achievements response of check_achievements. -/
structure UnlockedInfo where
  key : String
  name : String
  description : String
  points : Int
  icon : String
  viral_text : String
  reward : Option String
deriving DecidableEq, Repr

/-- Response enrichment: ACHIEVEMENTS[key].  check_achievements only appends
catalog literals, so the fallback branch (a KeyError in Python) is
unreachable from the endpoint. -/
def enrichKey (k : String) : UnlockedInfo :=
  match achievementsGet k with
  | some a => ⟨k, a.name, a.description, a.points, a.icon, a.viral_text, a.reward⟩
  | none => ⟨k, "", "", 0, "", "", none⟩

/-- check_achievements endpoint (achievements.py lines 82-173): user lookup,
three fact queries each guarding an existence-checked insert, then the
enriched newly-unlocked list.  The fact queries only touch bookings and
games, which the inserts never change, so querying the live session between
inserts matches the source. -/
def check_achievements (uid now : Int) (db : DB) :
    DB × Except HTTPError (List UnlockedInfo) :=
  if db.users.contains uid then
    let s1 := unlockStep uid now "first_booking" (decide (1 ≤ bookingsCount db uid)) (db, [])
    let s2 := unlockStep uid now "seven_day_streak"
      (decide (7 ≤ recentBookingsCount s1.1 uid now)) s1
    let s3 := unlockStep uid now "perfect_game" (decide (1 ≤ perfectGamesCount s2.1 uid)) s2
    (s3.1, .ok (s3.2.map enrichKey))
  else
    (db, .error ⟨404, "User not found"⟩)

/-- The three unlock steps of check_achievements with the fact conditions
evaluated against the initial state; the steps only append ledger rows and
never touch bookings or games, so this equals the live-session sequence of
the source (proved below as check_achievements_eq_evalUnlocks). -/
def evalUnlocks (uid now : Int) (db : DB) : DB × List String :=
  unlockStep uid now "perfect_game" (decide (1 ≤ perfectGamesCount db uid))
    (unlockStep uid now "seven_day_streak" (decide (7 ≤ recentBookingsCount db uid now))
      (unlockStep uid now "first_booking" (decide (1 ≤ bookingsCount db uid)) (db, [])))

/-- Keys of the newly-unlocked list of a check_achievements result. -/
def newKeys (r : DB × Except HTTPError (List UnlockedInfo)) : List String :=
  match r.2 with
  | .ok l => l.map UnlockedInfo.key
  | .error _ => []

/-- Share response body (achievements.py lines 195-206). -/
structure ShareResponse where
  success : Bool
  viral_text : Option String
  points_awarded : Option Int
deriving DecidableEq, Repr

/-- Session effect of share_achievement: the first ledger row matching
(uid, k) gets shared = true, shared_platform = platform, shared_at = now. -/
def markSharedFirst (uid : Int) (k platform : String) (now : Int) :
    List UserAchievement → List UserAchievement
  | [] => []
  | ua :: rest =>
      if matchesRec uid k ua then
        {ua with shared := true, shared_platform := some platform, shared_at := some now} :: rest
      else
        ua :: markSharedFirst uid k platform now rest

/-- share_achievement endpoint (achievements.py lines 175-206): 404 when no
ledger row matches, otherwise mark the row shared and answer with the
catalog viral text and the 5 bonus points (no viral text for a key outside
the catalog). -/
def share_achievement (uid : Int) (k platform : String) (now : Int) (db : DB) :
    DB × Except HTTPError ShareResponse :=
  if existsRecord db uid k then
    let db' := {db with user_achievements := markSharedFirst uid k platform now db.user_achievements}
    match achievementsGet k with
    | some a => (db', .ok ⟨true, some a.viral_text, some 5⟩)
    | none => (db', .ok ⟨true, none, none⟩)
  else
    (db, .error ⟨404, "Achievement not found"⟩)

/-- One element of the get_user_achievements listing response. -/
structure AchievementListItem where
  key : String
  name : String
  description : String
  points : Int
  icon : String
  unlocked_at : Int
  shared : Bool
deriving DecidableEq, Repr

/-- get_user_achievements endpoint (achievements.py lines 58-80): read-only
listing of the ledger rows of one user whose key resolves in the catalog. -/
def get_user_achievements (uid : Int) (db : DB) : List AchievementListItem :=
  (db.user_achievements.filter (fun ua => ua.user_id == uid)).filterMap
    (fun ua => (achievementsGet ua.achievement_key).map
      (fun a => ⟨ua.achievement_key, a.name, a.description, a.points, a.icon,
        ua.unlocked_at, ua.shared⟩))

/-- One row of the leaderboard response. -/
structure LeaderboardEntry where
  user_id : Int
  username : String
  total_points : Int
  achievements_count : Int
  rank : Int
deriving DecidableEq, Repr

/-- get_achievement_leaderboard endpoint (achievements.py lines 208-230):
the source returns this fixed mock list and never reads the ledger. -/
def get_achievement_leaderboard (_db : DB) : List LeaderboardEntry :=
  [⟨1, "BallPlayer123", 450, 8, 1⟩, ⟨2, "CourtMaster", 380, 6, 2⟩]

/-- Spec-side total points of one user: the sum of the catalog-resolved
points of the user ledger rows (spec section 4.6). -/
def spec_totalPoints (db : DB) (uid : Int) : Int :=
  (((db.user_achievements.filter (fun ua => ua.user_id == uid)).filterMap
    (fun ua => (achievementsGet ua.achievement_key).map AchievementDef.points)).foldl
      (· + ·) 0)

/-- The at-most-one-row-per-pair ledger invariant (spec section 3). -/
def LedgerInv (db : DB) : Prop :=
  ∀ uid k, countRecord db uid k ≤ 1

/-- Reachable database states: starting from an empty ledger, external
subsystems may change users, bookings and games freely (they never write
the ledger), and the two ledger-writing endpoints may run. -/
inductive Reachable : DB → Prop where
  | init (users : List Int) (bookings : List Booking) (games : List Game) :
      Reachable ⟨users, bookings, games, []⟩
  | envFacts (users : List Int) (bookings : List Booking) (games : List Game)
      (db : DB) (h : Reachable db) :
      Reachable ⟨users, bookings, games, db.user_achievements⟩
  | check (uid now : Int) (db : DB) (h : Reachable db) :
      Reachable (check_achievements uid now db).1
  | share (uid : Int) (k platform : String) (now : Int) (db : DB) (h : Reachable db) :
      Reachable (share_achievement uid k platform now db).1

/-- The three evaluator predicates, keyed like the catalog (spec 4.2). -/
def condFor (db : DB) (uid now : Int) (k : String) : Bool :=
  if k = "first_booking" then decide (1 ≤ bookingsCount db uid)
  else if k = "seven_day_streak" then decide (7 ≤ recentBookingsCount db uid now)
  else if k = "perfect_game" then decide (1 ≤ perfectGamesCount db uid)
  else false

/-- The keys the evaluator handles. -/
def achievementKeys : List String := ["first_booking", "seven_day_streak", "perfect_game"]

/-! Concrete states used by the witnesses. -/

/-- One user, one booking, no games, empty ledger. -/
def dbOneBooking : DB := ⟨[7], [⟨7, 0⟩], [], []⟩

/-- One user with one already-unlocked achievement. -/
def dbOneUnlock : DB := ⟨[7], [⟨7, 0⟩], [], [⟨7, "first_booking", 0, false, none, none⟩]⟩

/-! ## Scoring lemmas -/

theorem hrStep_eq (m : HealthMetrics) (s : Int) :
    hrStep m s = s + spec_hr_bonus_truthy m.heart_rate := by
  unfold hrStep spec_hr_bonus_truthy truthyI
  cases m.heart_rate with
  | none => simp
  | some v =>
      by_cases hv : v = 0
      · simp [hv]
      · simp only [Option.getD_some, bne_iff_ne, ne_eq, hv, not_false_eq_true, if_true,
          if_false, ite_false]
        split_ifs <;> omega

theorem stepsStep_eq (m : HealthMetrics) (s : Int) :
    stepsStep m s = s + spec_steps_bonus_truthy m.steps := by
  unfold stepsStep spec_steps_bonus_truthy truthyI
  cases m.steps with
  | none => simp
  | some v =>
      by_cases hv : v = 0
      · simp [hv]
      · simp only [Option.getD_some, bne_iff_ne, ne_eq, hv, not_false_eq_true, if_true,
          if_false, ite_false]
        split_ifs <;> omega

theorem sleepStep_eq (m : HealthMetrics) (s : Int) :
    sleepStep m s = s + spec_sleep_bonus_truthy m.sleep_hours := by
  unfold sleepStep spec_sleep_bonus_truthy truthyQ
  cases m.sleep_hours with
  | none => simp
  | some v =>
      by_cases hv : v = 0
      · simp [hv]
      · simp only [Option.getD_some, bne_iff_ne, ne_eq, hv, not_false_eq_true, if_true,
          if_false, ite_false]
        split_ifs <;> omega

theorem vo2Step_eq (m : HealthMetrics) (s : Int) :
    vo2Step m s = s + spec_vo2_bonus_truthy m.vo2_max := by
  unfold vo2Step spec_vo2_bonus_truthy truthyQ
  cases m.vo2_max with
  | none => simp
  | some v =>
      by_cases hv : v = 0
      · simp [hv]
      · simp only [Option.getD_some, bne_iff_ne, ne_eq, hv, not_false_eq_true, if_true,
          if_false, ite_false]
        split_ifs <;> omega

theorem calculate_health_score_decomp (m : HealthMetrics) :
    calculate_health_score m =
      min (50 + spec_hr_bonus_truthy m.heart_rate + spec_steps_bonus_truthy m.steps
        + spec_sleep_bonus_truthy m.sleep_hours + spec_vo2_bonus_truthy m.vo2_max) 100 := by
  unfold calculate_health_score
  rw [hrStep_eq, stepsStep_eq, sleepStep_eq, vo2Step_eq]

theorem spec_hr_bonus_truthy_nonneg (x : Option Int) : 0 ≤ spec_hr_bonus_truthy x := by
  cases x with
  | none => simp [spec_hr_bonus_truthy]
  | some v =>
      simp only [spec_hr_bonus_truthy]
      split_ifs <;> omega

theorem spec_steps_bonus_truthy_nonneg (x : Option Int) : 0 ≤ spec_steps_bonus_truthy x := by
  cases x with
  | none => simp [spec_steps_bonus_truthy]
  | some v =>
      simp only [spec_steps_bonus_truthy]
      split_ifs <;> omega

theorem spec_sleep_bonus_truthy_nonneg (x : Option ℚ) : 0 ≤ spec_sleep_bonus_truthy x := by
  cases x with
  | none => simp [spec_sleep_bonus_truthy]
  | some v =>
      simp only [spec_sleep_bonus_truthy]
      split_ifs <;> omega

theorem spec_vo2_bonus_truthy_nonneg (x : Option ℚ) : 0 ≤ spec_vo2_bonus_truthy x := by
  cases x with
  | none => simp [spec_vo2_bonus_truthy]
  | some v =>
      simp only [spec_vo2_bonus_truthy]
      split_ifs <;> omega

/-- C3 counterexample: a snapshot with heartRate present and equal to 0 scores
50 in the code (truthiness skips the block) while the literal spec table gives
50 + 15 = 65, so the claimed per-present-metric formula fails. -/
theorem calculate_health_score_zero_hr_counterexample :
    calculate_health_score ⟨some 0, none, none, none, none⟩ = 50 ∧
    spec_score ⟨some 0, none, none, none, none⟩ = 65 ∧
    calculate_health_score ⟨some 0, none, none, none, none⟩ ≠
      spec_score ⟨some 0, none, none, none, none⟩ := by
  refine ⟨by decide, by decide, by decide⟩

/-- C3 (amended): for every MetricsSnapshot the score is base 50 plus the
breakpoint-table bonus of each metric that is present AND nonzero (presence
is Python truthiness), clamped to 0..100; the all-absent snapshot scores 50
and the all-top-tier snapshot scores 100. -/
theorem calculate_health_score_correct :
    (∀ m : HealthMetrics, calculate_health_score m = spec_score_truthy m) ∧
    calculate_health_score ⟨none, none, none, none, none⟩ = 50 ∧
    calculate_health_score ⟨some 55, some 10000, none, some 50, some 8⟩ = 100 := by
  refine ⟨fun m => ?_, by decide, by decide⟩
  rw [calculate_health_score_decomp]
  unfold spec_score_truthy
  have h1 := spec_hr_bonus_truthy_nonneg m.heart_rate
  have h2 := spec_steps_bonus_truthy_nonneg m.steps
  have h3 := spec_sleep_bonus_truthy_nonneg m.sleep_hours
  have h4 := spec_vo2_bonus_truthy_nonneg m.vo2_max
  omega

/-- C10: a metric that is present but zero contributes no bonus; the score is
the same as with that field absent, because presence is tested by Python
truthiness rather than by a non-None check. -/
theorem zero_valued_metric_scores_like_absent (m : HealthMetrics) :
    calculate_health_score {m with heart_rate := some 0} =
      calculate_health_score {m with heart_rate := none} ∧
    calculate_health_score {m with steps := some 0} =
      calculate_health_score {m with steps := none} ∧
    calculate_health_score {m with sleep_hours := some 0} =
      calculate_health_score {m with sleep_hours := none} ∧
    calculate_health_score {m with vo2_max := some 0} =
      calculate_health_score {m with vo2_max := none} := by
  refine ⟨?_, ?_, ?_, ?_⟩ <;>
    simp [calculate_health_score_decomp, spec_hr_bonus_truthy, spec_steps_bonus_truthy,
      spec_sleep_bonus_truthy, spec_vo2_bonus_truthy]

/-- C5: generate_training_plan is not total on the stored metrics dicts.  A
snapshot without sleep data stores sleep_hours as None and the comparison
None >= 8 raises TypeError, so every recommendation request for such a user
fails instead of classifying an intensity. -/
theorem generate_training_plan_raises_on_absent_sleep :
    generate_training_plan ⟨none, none, none, none, none⟩ = .error PyError.typeError ∧
    (∀ m : HealthMetrics, m.sleep_hours = none →
      generate_training_plan m = .error PyError.typeError) := by
  refine ⟨rfl, fun m hm => ?_⟩
  unfold generate_training_plan pyAnd pyGeQ
  rw [hm]

/-- C5 witness: the all-absent snapshot satisfies the hypothesis and raises. -/
theorem generate_training_plan_raises_on_absent_sleep_witness :
    (⟨none, none, none, none, none⟩ : HealthMetrics).sleep_hours = none ∧
    generate_training_plan ⟨none, none, none, none, none⟩ = .error PyError.typeError :=
  ⟨rfl, generate_training_plan_raises_on_absent_sleep.2 ⟨none, none, none, none, none⟩ rfl⟩

/-- C6 counterexample: the snapshot sleepHours = 6, heartRate = 80 is
classified with the string "Light", not "Low" as the claim states. -/
theorem generate_training_plan_low_counterexample :
    (generate_training_plan ⟨some 80, none, none, none, some 6⟩).map
      TrainingPlan.recommended_intensity = .ok "Light" ∧
    (generate_training_plan ⟨some 80, none, none, none, some 6⟩).map
      TrainingPlan.recommended_intensity ≠ .ok "Low" := by
  refine ⟨rfl, fun h => ?_⟩
  have h2 : (Except.ok "Light" : Except PyError String) = Except.ok "Low" := by
    calc (Except.ok "Light" : Except PyError String)
        = (generate_training_plan ⟨some 80, none, none, none, some 6⟩).map
            TrainingPlan.recommended_intensity := rfl
      _ = Except.ok "Low" := h
  exact absurd (Except.ok.inj h2) (by decide)

/-- C6 (amended): with both sleepHours and heartRate present, the intensity is
"High" iff sleep ≥ 8 and heartRate < 60, else "Moderate" iff sleep ≥ 7 and
heartRate < 75, else "Light" (the code says "Light" where the spec says Low);
when sleepHours is absent — or sleepHours ≥ 7 with heartRate absent — the code
raises TypeError instead of applying the claimed defaults 0 and 70. -/
theorem generate_training_plan_classification :
    (∀ (m : HealthMetrics) (s : ℚ) (hr : Int),
        m.sleep_hours = some s → m.heart_rate = some hr →
        (generate_training_plan m).map TrainingPlan.recommended_intensity =
          .ok (if 8 ≤ s ∧ hr < 60 then "High"
            else if 7 ≤ s ∧ hr < 75 then "Moderate" else "Light")) ∧
    (∀ m : HealthMetrics, m.sleep_hours = none →
        generate_training_plan m = .error PyError.typeError) ∧
    (∀ (m : HealthMetrics) (s : ℚ), m.sleep_hours = some s → 7 ≤ s →
        m.heart_rate = none → generate_training_plan m = .error PyError.typeError) ∧
    (generate_training_plan ⟨some 55, none, none, none, some 8⟩).map
      TrainingPlan.recommended_intensity = .ok "High" ∧
    (generate_training_plan ⟨some 80, none, none, none, some 6⟩).map
      TrainingPlan.recommended_intensity = .ok "Light" ∧
    (generate_training_plan ⟨some 70, none, none, none, some 7.5⟩).map
      TrainingPlan.recommended_intensity = .ok "Moderate" := by
  refine ⟨fun m s hr hs hh => ?_, fun m hm => ?_, fun m s hs h7 hh => ?_, ?_, ?_, ?_⟩
  · by_cases h8 : (8:ℚ) ≤ s
    · by_cases h60 : hr < 60
      · simp [generate_training_plan, pyAnd, pyGeQ, pyLtI, Except.map, hs, hh, h8, h60]
      · have h7 : (7:ℚ) ≤ s := by linarith
        by_cases h75 : hr < 75 <;>
          simp [generate_training_plan, pyAnd, pyGeQ, pyLtI, Except.map, hs, hh, h8, h60, h7,
            h75]
    · by_cases h7 : (7:ℚ) ≤ s
      · by_cases h75 : hr < 75 <;>
          simp [generate_training_plan, pyAnd, pyGeQ, pyLtI, Except.map, hs, hh, h8, h7, h75]
      · simp [generate_training_plan, pyAnd, pyGeQ, pyLtI, Except.map, hs, hh, h8, h7]
  · unfold generate_training_plan pyAnd pyGeQ
    rw [hm]
  · by_cases h8 : (8:ℚ) ≤ s <;>
      simp [generate_training_plan, pyAnd, pyGeQ, pyLtI, Except.map, hs, hh, h8, h7]
  · norm_num [generate_training_plan, pyAnd, pyGeQ, pyLtI, Except.map]
  · norm_num [generate_training_plan, pyAnd, pyGeQ, pyLtI, Except.map]
  · norm_num [generate_training_plan, pyAnd, pyGeQ, pyLtI, Except.map]

/-- C6 witness: the High instance discharges the hypotheses of the amended
classification theorem at sleepHours = 8, heartRate = 55. -/
theorem generate_training_plan_classification_witness :
    (⟨some 55, none, none, none, some 8⟩ : HealthMetrics).sleep_hours = some 8 ∧
    (⟨some 55, none, none, none, some 8⟩ : HealthMetrics).heart_rate = some 55 ∧
    (generate_training_plan ⟨some 55, none, none, none, some 8⟩).map
      TrainingPlan.recommended_intensity =
      .ok (if (8:ℚ) ≤ 8 ∧ (55:Int) < 60 then "High"
        else if (7:ℚ) ≤ 8 ∧ (55:Int) < 75 then "Moderate" else "Light") :=
  ⟨rfl, rfl, generate_training_plan_classification.1 ⟨some 55, none, none, none, some 8⟩
    8 55 rfl rfl⟩

/-! ## Ledger and evaluator lemmas -/

theorem unlockStep_users (uid now : Int) (k : String) (c : Bool) (s : DB × List String) :
    (unlockStep uid now k c s).1.users = s.1.users := by
  unfold unlockStep
  split_ifs <;> rfl

theorem unlockStep_bookings (uid now : Int) (k : String) (c : Bool) (s : DB × List String) :
    (unlockStep uid now k c s).1.bookings = s.1.bookings := by
  unfold unlockStep
  split_ifs <;> rfl

theorem unlockStep_games (uid now : Int) (k : String) (c : Bool) (s : DB × List String) :
    (unlockStep uid now k c s).1.games = s.1.games := by
  unfold unlockStep
  split_ifs <;> rfl

theorem bookingsCount_unlockStep (uid now : Int) (k : String) (c : Bool)
    (s : DB × List String) (u : Int) :
    bookingsCount (unlockStep uid now k c s).1 u = bookingsCount s.1 u := by
  unfold bookingsCount
  rw [unlockStep_bookings]

theorem recentBookingsCount_unlockStep (uid now : Int) (k : String) (c : Bool)
    (s : DB × List String) (u t : Int) :
    recentBookingsCount (unlockStep uid now k c s).1 u t = recentBookingsCount s.1 u t := by
  unfold recentBookingsCount
  rw [unlockStep_bookings]

theorem perfectGamesCount_unlockStep (uid now : Int) (k : String) (c : Bool)
    (s : DB × List String) (u : Int) :
    perfectGamesCount (unlockStep uid now k c s).1 u = perfectGamesCount s.1 u := by
  unfold perfectGamesCount
  rw [unlockStep_games]

theorem check_achievements_eq_evalUnlocks (db : DB) (uid now : Int)
    (hu : db.users.contains uid = true) :
    check_achievements uid now db =
      ((evalUnlocks uid now db).1, .ok ((evalUnlocks uid now db).2.map enrichKey)) := by
  unfold check_achievements evalUnlocks
  simp only [hu, if_true, recentBookingsCount_unlockStep, perfectGamesCount_unlockStep]

theorem existsRecord_unlockStep_mono (uid now : Int) (k : String) (c : Bool)
    (s : DB × List String) (u' : Int) (k' : String)
    (h : existsRecord s.1 u' k' = true) :
    existsRecord (unlockStep uid now k c s).1 u' k' = true := by
  unfold unlockStep
  split_ifs <;> simp_all [existsRecord, List.any_append]

theorem existsRecord_unlockStep_self (uid now : Int) (k : String) (c : Bool)
    (s : DB × List String) (hc : c = true) :
    existsRecord (unlockStep uid now k c s).1 uid k = true := by
  subst hc
  unfold unlockStep
  split_ifs with h1 h2
  · exact h2
  · simp [existsRecord, List.any_append, matchesRec]
  · exact absurd rfl h1

theorem existsRecord_unlockStep_ne (uid now : Int) (k : String) (c : Bool)
    (s : DB × List String) (u' : Int) (k' : String) (hk : k' ≠ k) :
    existsRecord (unlockStep uid now k c s).1 u' k' = existsRecord s.1 u' k' := by
  have hk2 : k ≠ k' := Ne.symm hk
  unfold unlockStep
  split_ifs <;> simp [existsRecord, List.any_append, matchesRec, hk2]

theorem unlockStep_noop (uid now : Int) (k : String) (c : Bool) (s : DB × List String)
    (h : c = false ∨ existsRecord s.1 uid k = true) :
    unlockStep uid now k c s = s := by
  unfold unlockStep
  rcases h with h | h <;> simp [h]

theorem mem_unlockStep_acc (uid now : Int) (k : String) (c : Bool) (s : DB × List String)
    (a : String) :
    a ∈ (unlockStep uid now k c s).2 ↔
      a ∈ s.2 ∨ (a = k ∧ c = true ∧ existsRecord s.1 uid k = false) := by
  unfold unlockStep
  by_cases hc : c
  · by_cases he : existsRecord s.1 uid k <;> simp [hc, he]
  · simp [hc]

theorem countRecord_unlockStep_self (uid now : Int) (k : String) (c : Bool)
    (s : DB × List String) :
    countRecord (unlockStep uid now k c s).1 uid k =
      if c = true ∧ existsRecord s.1 uid k = false then countRecord s.1 uid k + 1
      else countRecord s.1 uid k := by
  unfold unlockStep
  by_cases hc : c
  · by_cases he : existsRecord s.1 uid k
    · simp [hc, he]
    · simp [hc, he, countRecord, List.filter_append, matchesRec]
  · simp [hc]

theorem countRecord_unlockStep_ne (uid now : Int) (k : String) (c : Bool)
    (s : DB × List String) (u' : Int) (k' : String) (hk : k' ≠ k) :
    countRecord (unlockStep uid now k c s).1 u' k' = countRecord s.1 u' k' := by
  have hk2 : k ≠ k' := Ne.symm hk
  unfold unlockStep
  split_ifs <;> simp [countRecord, List.filter_append, matchesRec, hk2]

theorem countRecord_unlockStep_ne_user (uid now : Int) (k : String) (c : Bool)
    (s : DB × List String) (u' : Int) (k' : String) (hu : u' ≠ uid) :
    countRecord (unlockStep uid now k c s).1 u' k' = countRecord s.1 u' k' := by
  have hu2 : uid ≠ u' := Ne.symm hu
  unfold unlockStep
  split_ifs <;> simp [countRecord, List.filter_append, matchesRec, hu2]

theorem existsRecord_iff_countRecord_pos (db : DB) (uid : Int) (k : String) :
    existsRecord db uid k = true ↔ 0 < countRecord db uid k := by
  unfold existsRecord countRecord
  rw [List.any_eq_true, ← List.countP_eq_length_filter, List.countP_pos_iff]

theorem countRecord_eq_zero_of_not_exists (db : DB) (uid : Int) (k : String)
    (h : existsRecord db uid k = false) : countRecord db uid k = 0 := by
  by_contra hne
  have hpos : 0 < countRecord db uid k := Nat.pos_of_ne_zero hne
  have h2 := (existsRecord_iff_countRecord_pos db uid k).2 hpos
  rw [h] at h2
  exact absurd h2 (by decide)

theorem evalUnlocks_users (db : DB) (uid now : Int) :
    (evalUnlocks uid now db).1.users = db.users := by
  unfold evalUnlocks
  rw [unlockStep_users, unlockStep_users, unlockStep_users]

theorem evalUnlocks_bookings (db : DB) (uid now : Int) :
    (evalUnlocks uid now db).1.bookings = db.bookings := by
  unfold evalUnlocks
  rw [unlockStep_bookings, unlockStep_bookings, unlockStep_bookings]

theorem evalUnlocks_games (db : DB) (uid now : Int) :
    (evalUnlocks uid now db).1.games = db.games := by
  unfold evalUnlocks
  rw [unlockStep_games, unlockStep_games, unlockStep_games]

theorem exists_first_after (db : DB) (uid now : Int) (h : 1 ≤ bookingsCount db uid) :
    existsRecord (evalUnlocks uid now db).1 uid "first_booking" = true := by
  unfold evalUnlocks
  apply existsRecord_unlockStep_mono
  apply existsRecord_unlockStep_mono
  exact existsRecord_unlockStep_self uid now "first_booking" _ _ (by simp [h])

theorem exists_seven_after (db : DB) (uid now : Int)
    (h : 7 ≤ recentBookingsCount db uid now) :
    existsRecord (evalUnlocks uid now db).1 uid "seven_day_streak" = true := by
  unfold evalUnlocks
  apply existsRecord_unlockStep_mono
  exact existsRecord_unlockStep_self uid now "seven_day_streak" _ _ (by simp [h])

theorem exists_perfect_after (db : DB) (uid now : Int) (h : 1 ≤ perfectGamesCount db uid) :
    existsRecord (evalUnlocks uid now db).1 uid "perfect_game" = true := by
  unfold evalUnlocks
  exact existsRecord_unlockStep_self uid now "perfect_game" _ _ (by simp [h])

theorem evalUnlocks_noop (db : DB) (uid now : Int)
    (h1 : 1 ≤ bookingsCount db uid → existsRecord db uid "first_booking" = true)
    (h2 : 7 ≤ recentBookingsCount db uid now → existsRecord db uid "seven_day_streak" = true)
    (h3 : 1 ≤ perfectGamesCount db uid → existsRecord db uid "perfect_game" = true) :
    evalUnlocks uid now db = (db, []) := by
  unfold evalUnlocks
  have n1 : unlockStep uid now "first_booking" (decide (1 ≤ bookingsCount db uid)) (db, [])
      = (db, []) := by
    by_cases h : 1 ≤ bookingsCount db uid
    · exact unlockStep_noop _ _ _ _ _ (Or.inr (h1 h))
    · exact unlockStep_noop _ _ _ _ _ (Or.inl (by simp [h]))
  rw [n1]
  have n2 : unlockStep uid now "seven_day_streak" (decide (7 ≤ recentBookingsCount db uid now))
      (db, []) = (db, []) := by
    by_cases h : 7 ≤ recentBookingsCount db uid now
    · exact unlockStep_noop _ _ _ _ _ (Or.inr (h2 h))
    · exact unlockStep_noop _ _ _ _ _ (Or.inl (by simp [h]))
  rw [n2]
  by_cases h : 1 ≤ perfectGamesCount db uid
  · exact unlockStep_noop _ _ _ _ _ (Or.inr (h3 h))
  · exact unlockStep_noop _ _ _ _ _ (Or.inl (by simp [h]))

theorem evalUnlocks_stable (db : DB) (uid now : Int) :
    evalUnlocks uid now ((evalUnlocks uid now db).1) = ((evalUnlocks uid now db).1, []) := by
  have hb := evalUnlocks_bookings db uid now
  have hg := evalUnlocks_games db uid now
  have e1 : bookingsCount (evalUnlocks uid now db).1 uid = bookingsCount db uid := by
    unfold bookingsCount
    rw [hb]
  have e2 : recentBookingsCount (evalUnlocks uid now db).1 uid now
      = recentBookingsCount db uid now := by
    unfold recentBookingsCount
    rw [hb]
  have e3 : perfectGamesCount (evalUnlocks uid now db).1 uid = perfectGamesCount db uid := by
    unfold perfectGamesCount
    rw [hg]
  apply evalUnlocks_noop
  · intro h
    exact exists_first_after db uid now (by rwa [e1] at h)
  · intro h
    exact exists_seven_after db uid now (by rwa [e2] at h)
  · intro h
    exact exists_perfect_after db uid now (by rwa [e3] at h)

theorem mem_evalUnlocks_acc (db : DB) (uid now : Int) (a : String) :
    a ∈ (evalUnlocks uid now db).2 ↔
      ((a = "first_booking" ∧ 1 ≤ bookingsCount db uid ∧
          existsRecord db uid "first_booking" = false) ∨
       (a = "seven_day_streak" ∧ 7 ≤ recentBookingsCount db uid now ∧
          existsRecord db uid "seven_day_streak" = false) ∨
       (a = "perfect_game" ∧ 1 ≤ perfectGamesCount db uid ∧
          existsRecord db uid "perfect_game" = false)) := by
  unfold evalUnlocks
  rw [mem_unlockStep_acc, mem_unlockStep_acc, mem_unlockStep_acc]
  rw [existsRecord_unlockStep_ne uid now "seven_day_streak" _ _ uid "perfect_game" (by decide),
    existsRecord_unlockStep_ne uid now "first_booking" _ _ uid "perfect_game" (by decide),
    existsRecord_unlockStep_ne uid now "first_booking" _ _ uid "seven_day_streak" (by decide)]
  simp only [List.not_mem_nil, false_or, decide_eq_true_eq]
  tauto

theorem countRecord_evalUnlocks_first (db : DB) (uid now : Int)
    (h : existsRecord db uid "first_booking" = false) (hc : 1 ≤ bookingsCount db uid) :
    countRecord (evalUnlocks uid now db).1 uid "first_booking" = 1 := by
  unfold evalUnlocks
  rw [countRecord_unlockStep_ne uid now "perfect_game" _ _ uid "first_booking" (by decide),
    countRecord_unlockStep_ne uid now "seven_day_streak" _ _ uid "first_booking" (by decide),
    countRecord_unlockStep_self]
  have h0 : countRecord db uid "first_booking" = 0 :=
    countRecord_eq_zero_of_not_exists db uid "first_booking" h
  simp [hc, h, h0]

theorem countRecord_evalUnlocks_seven (db : DB) (uid now : Int)
    (h : existsRecord db uid "seven_day_streak" = false)
    (hc : 7 ≤ recentBookingsCount db uid now) :
    countRecord (evalUnlocks uid now db).1 uid "seven_day_streak" = 1 := by
  unfold evalUnlocks
  rw [countRecord_unlockStep_ne uid now "perfect_game" _ _ uid "seven_day_streak" (by decide),
    countRecord_unlockStep_self,
    existsRecord_unlockStep_ne uid now "first_booking" _ _ uid "seven_day_streak" (by decide),
    countRecord_unlockStep_ne uid now "first_booking" _ _ uid "seven_day_streak" (by decide)]
  have h0 : countRecord db uid "seven_day_streak" = 0 :=
    countRecord_eq_zero_of_not_exists db uid "seven_day_streak" h
  simp [hc, h, h0]

theorem countRecord_evalUnlocks_perfect (db : DB) (uid now : Int)
    (h : existsRecord db uid "perfect_game" = false) (hc : 1 ≤ perfectGamesCount db uid) :
    countRecord (evalUnlocks uid now db).1 uid "perfect_game" = 1 := by
  unfold evalUnlocks
  rw [countRecord_unlockStep_self,
    existsRecord_unlockStep_ne uid now "seven_day_streak" _ _ uid "perfect_game" (by decide),
    existsRecord_unlockStep_ne uid now "first_booking" _ _ uid "perfect_game" (by decide),
    countRecord_unlockStep_ne uid now "seven_day_streak" _ _ uid "perfect_game" (by decide),
    countRecord_unlockStep_ne uid now "first_booking" _ _ uid "perfect_game" (by decide)]
  have h0 : countRecord db uid "perfect_game" = 0 :=
    countRecord_eq_zero_of_not_exists db uid "perfect_game" h
  simp [hc, h, h0]

theorem enrichKey_key (k : String) : (enrichKey k).key = k := by
  unfold enrichKey
  split <;> rfl

theorem map_enrichKey_key (l : List String) :
    (l.map enrichKey).map UnlockedInfo.key = l := by
  induction l with
  | nil => rfl
  | cons a t ih => simp [enrichKey_key, ih]

theorem newKeys_check (db : DB) (uid now : Int) (hu : db.users.contains uid = true) :
    newKeys (check_achievements uid now db) = (evalUnlocks uid now db).2 := by
  rw [check_achievements_eq_evalUnlocks db uid now hu]
  show ((evalUnlocks uid now db).2.map enrichKey).map UnlockedInfo.key = (evalUnlocks uid now db).2
  exact map_enrichKey_key _

theorem check_achievements_second (db : DB) (uid now : Int)
    (hu : db.users.contains uid = true) :
    check_achievements uid now (check_achievements uid now db).1 =
      ((check_achievements uid now db).1, .ok []) := by
  have h1 := check_achievements_eq_evalUnlocks db uid now hu
  have hu2 : ((check_achievements uid now db).1).users.contains uid = true := by
    rw [h1]
    simpa [evalUnlocks_users] using hu
  rw [check_achievements_eq_evalUnlocks _ uid now hu2, h1]
  simp [evalUnlocks_stable]

theorem matchesRec_update (u' : Int) (k' : String) (ua : UserAchievement)
    (p : String) (t : Int) :
    matchesRec u' k' {ua with shared := true, shared_platform := some p, shared_at := some t}
      = matchesRec u' k' ua := rfl

theorem markSharedFirst_count (uid : Int) (k platform : String) (now : Int)
    (l : List UserAchievement) (u' : Int) (k' : String) :
    ((markSharedFirst uid k platform now l).filter (matchesRec u' k')).length =
      (l.filter (matchesRec u' k')).length := by
  induction l with
  | nil => rfl
  | cons hd rest ih =>
      unfold markSharedFirst
      by_cases hm : matchesRec uid k hd
      · rw [if_pos hm, List.filter_cons, List.filter_cons, matchesRec_update]
        cases hx : matchesRec u' k' hd <;> simp [hx]
      · rw [if_neg hm, List.filter_cons, List.filter_cons]
        cases hx : matchesRec u' k' hd <;> simp [hx, ih]

theorem markSharedFirst_sets (uid : Int) (k platform : String) (now : Int)
    (l : List UserAchievement) (h : l.any (matchesRec uid k) = true) :
    ∃ ua ∈ markSharedFirst uid k platform now l,
      matchesRec uid k ua = true ∧ ua.shared = true ∧
      ua.shared_platform = some platform ∧ ua.shared_at = some now := by
  induction l with
  | nil => simp at h
  | cons hd rest ih =>
      by_cases hm : matchesRec uid k hd
      · refine ⟨⟨hd.user_id, hd.achievement_key, hd.unlocked_at, true, some platform, some now⟩,
          ?_, ?_, rfl, rfl, rfl⟩
        · unfold markSharedFirst
          rw [if_pos hm]
          exact List.mem_cons_self _ _
        · exact hm
      · have h2 : rest.any (matchesRec uid k) = true := by
          simp only [List.any_cons, Bool.or_eq_true] at h
          rcases h with h | h
          · exact absurd h hm
          · exact h
        obtain ⟨ua, hmem, hrest⟩ := ih h2
        refine ⟨ua, ?_, hrest⟩
        unfold markSharedFirst
        simp [hm, hmem]

theorem share_achievement_fst (db : DB) (uid : Int) (k platform : String) (now : Int) :
    (share_achievement uid k platform now db).1 =
      if existsRecord db uid k then
        {db with user_achievements := markSharedFirst uid k platform now db.user_achievements}
      else db := by
  unfold share_achievement
  split_ifs with he
  · cases achievementsGet k <;> rfl
  · rfl

theorem check_achievements_fst (db : DB) (uid now : Int) :
    (check_achievements uid now db).1 =
      if db.users.contains uid then (evalUnlocks uid now db).1 else db := by
  by_cases hu : db.users.contains uid
  · rw [check_achievements_eq_evalUnlocks db uid now hu, if_pos hu]
  · unfold check_achievements
    rw [if_neg hu, if_neg hu]

theorem ledgerInv_unlockStep (uid now : Int) (k : String) (c : Bool) (s : DB × List String)
    (h : LedgerInv s.1) : LedgerInv (unlockStep uid now k c s).1 := by
  intro u' k'
  by_cases hk : k' = k
  · subst hk
    by_cases hu : u' = uid
    · subst hu
      rw [countRecord_unlockStep_self]
      split_ifs with hcase
      · have h0 := countRecord_eq_zero_of_not_exists s.1 u' k' hcase.2
        omega
      · exact h u' k'
    · rw [countRecord_unlockStep_ne_user uid now k' c s u' k' hu]
      exact h u' k'
  · rw [countRecord_unlockStep_ne uid now k c s u' k' hk]
    exact h u' k'

theorem ledgerInv_evalUnlocks (db : DB) (uid now : Int) (h : LedgerInv db) :
    LedgerInv (evalUnlocks uid now db).1 := by
  unfold evalUnlocks
  apply ledgerInv_unlockStep
  apply ledgerInv_unlockStep
  apply ledgerInv_unlockStep
  exact h

theorem ledgerInv_check (db : DB) (uid now : Int) (h : LedgerInv db) :
    LedgerInv (check_achievements uid now db).1 := by
  rw [check_achievements_fst]
  split_ifs with hu
  · exact ledgerInv_evalUnlocks db uid now h
  · exact h

theorem ledgerInv_share (db : DB) (uid : Int) (k platform : String) (now : Int)
    (h : LedgerInv db) : LedgerInv (share_achievement uid k platform now db).1 := by
  rw [share_achievement_fst]
  split_ifs with he
  · intro u' k'
    show ((markSharedFirst uid k platform now db.user_achievements).filter
      (matchesRec u' k')).length ≤ 1
    rw [markSharedFirst_count]
    exact h u' k'
  · exact h

/-! ## Claim theorems for the achievement engine -/

/-- C1: for facts that satisfy a predicate whose achievement is not yet
recorded, the first check_achievements call reports the key as newly
unlocked, the second call with the same facts returns the state unchanged
with an empty newly-unlocked list, and exactly one UnlockRecord exists for
the (userId, achievementKey) pair afterwards. -/
theorem check_achievements_idempotent (db : DB) (uid now : Int) (k : String)
    (hu : db.users.contains uid = true)
    (hk : k ∈ achievementKeys)
    (hc : condFor db uid now k = true)
    (hnew : existsRecord db uid k = false) :
    k ∈ newKeys (check_achievements uid now db) ∧
    check_achievements uid now (check_achievements uid now db).1 =
      ((check_achievements uid now db).1, .ok []) ∧
    countRecord (check_achievements uid now db).1 uid k = 1 := by
  have hfst : (check_achievements uid now db).1 = (evalUnlocks uid now db).1 := by
    rw [check_achievements_eq_evalUnlocks db uid now hu]
  refine ⟨?_, check_achievements_second db uid now hu, ?_⟩
  · rw [newKeys_check db uid now hu, mem_evalUnlocks_acc]
    simp only [achievementKeys, List.mem_cons, List.not_mem_nil, or_false] at hk
    rcases hk with rfl | rfl | rfl
    · exact Or.inl ⟨rfl, by simpa [condFor] using hc, hnew⟩
    · exact Or.inr (Or.inl ⟨rfl, by simpa [condFor] using hc, hnew⟩)
    · exact Or.inr (Or.inr ⟨rfl, by simpa [condFor] using hc, hnew⟩)
  · rw [hfst]
    simp only [achievementKeys, List.mem_cons, List.not_mem_nil, or_false] at hk
    rcases hk with rfl | rfl | rfl
    · exact countRecord_evalUnlocks_first db uid now hnew (by simpa [condFor] using hc)
    · exact countRecord_evalUnlocks_seven db uid now hnew (by simpa [condFor] using hc)
    · exact countRecord_evalUnlocks_perfect db uid now hnew (by simpa [condFor] using hc)

/-- C1 witness: one user with one booking and an empty ledger unlocks
first_booking once; the second call is a no-op and the count is one. -/
theorem check_achievements_idempotent_witness :
    dbOneBooking.users.contains 7 = true ∧
    "first_booking" ∈ achievementKeys ∧
    condFor dbOneBooking 7 1000000 "first_booking" = true ∧
    existsRecord dbOneBooking 7 "first_booking" = false ∧
    ("first_booking" ∈ newKeys (check_achievements 7 1000000 dbOneBooking) ∧
     check_achievements 7 1000000 (check_achievements 7 1000000 dbOneBooking).1 =
       ((check_achievements 7 1000000 dbOneBooking).1, .ok []) ∧
     countRecord (check_achievements 7 1000000 dbOneBooking).1 7 "first_booking" = 1) :=
  ⟨by decide, by decide, by decide, by decide,
    check_achievements_idempotent dbOneBooking 7 1000000 "first_booking"
      (by decide) (by decide) (by decide) (by decide)⟩

/-- C2: every reachable ledger state has at most one UnlockRecord per
(userId, achievementKey) pair; the evaluator checks existence before
insertion, the share endpoint only mutates fields of the existing row, and
external fact updates never write the ledger (the listing endpoint reads
the ledger without returning a state at all). -/
theorem reachable_ledger_invariant (db : DB) (h : Reachable db) : LedgerInv db := by
  induction h with
  | init users bookings games =>
      intro u k
      simp [countRecord]
  | envFacts users bookings games db h ih =>
      intro u k
      exact ih u k
  | check uid now db h ih => exact ledgerInv_check db uid now ih
  | share uid k platform now db h ih => exact ledgerInv_share db uid k platform now ih

/-- C2 witness: the state reached by one check_achievements call from an
initial ledger-free state satisfies the at-most-one invariant at the pair
it just unlocked. -/
theorem reachable_ledger_invariant_witness :
    countRecord (check_achievements 7 1000000 dbOneBooking).1 7 "first_booking" ≤ 1 :=
  reachable_ledger_invariant (check_achievements 7 1000000 dbOneBooking).1
    (Reachable.check 7 1000000 dbOneBooking (Reachable.init [7] [⟨7, 0⟩] []))
    7 "first_booking"

/-- C4: for a user with no prior unlocks, each key is newly unlocked exactly
when its own fact threshold holds (first_booking: ≥ 1 booking,
seven_day_streak: ≥ 7 recent bookings, perfect_game: ≥ 1 perfect game),
independently of the other predicates; and the end-to-end example with one
booking, no recent bookings and no perfect games returns exactly
first_booking with points 50. -/
theorem check_achievements_predicates :
    (∀ (db : DB) (uid now : Int),
        db.users.contains uid = true →
        (∀ ua ∈ db.user_achievements, ua.user_id ≠ uid) →
        (("first_booking" ∈ newKeys (check_achievements uid now db) ↔
            1 ≤ bookingsCount db uid) ∧
         ("seven_day_streak" ∈ newKeys (check_achievements uid now db) ↔
            7 ≤ recentBookingsCount db uid now) ∧
         ("perfect_game" ∈ newKeys (check_achievements uid now db) ↔
            1 ≤ perfectGamesCount db uid))) ∧
    (check_achievements 7 1000000 dbOneBooking).2 =
      .ok [⟨"first_booking", "First Steps", "Booked your first training session", 50, "🏆",
        "I just booked my first run via GIA! 🚀", none⟩] := by
  constructor
  · intro db uid now hu hnp
    have hne : ∀ k, existsRecord db uid k = false := by
      intro k
      unfold existsRecord
      rw [List.any_eq_false]
      intro ua hua
      simp only [matchesRec, Bool.and_eq_true, beq_iff_eq, not_and]
      intro h1
      exact absurd h1 (hnp ua hua)
    rw [newKeys_check db uid now hu]
    refine ⟨?_, ?_, ?_⟩ <;> rw [mem_evalUnlocks_acc] <;> simp [hne]
  · rfl

/-- C4 witness: the general part applied to the one-booking user. -/
theorem check_achievements_predicates_witness :
    dbOneBooking.users.contains 7 = true ∧
    (∀ ua ∈ dbOneBooking.user_achievements, ua.user_id ≠ 7) ∧
    (("first_booking" ∈ newKeys (check_achievements 7 1000000 dbOneBooking) ↔
        1 ≤ bookingsCount dbOneBooking 7) ∧
     ("seven_day_streak" ∈ newKeys (check_achievements 7 1000000 dbOneBooking) ↔
        7 ≤ recentBookingsCount dbOneBooking 7 1000000) ∧
     ("perfect_game" ∈ newKeys (check_achievements 7 1000000 dbOneBooking) ↔
        1 ≤ perfectGamesCount dbOneBooking 7)) :=
  ⟨by decide, by decide,
    check_achievements_predicates.1 dbOneBooking 7 1000000 (by decide) (by decide)⟩

/-- C7: share_achievement fails with the 404 Achievement-not-found error
exactly when no UnlockRecord exists for the pair, leaving the state
unchanged; on an existing record whose key is in the catalog it marks the
row shared with the platform and timestamp and returns the catalog
viralText verbatim together with the 5 bonus points. -/
theorem share_achievement_spec (db : DB) (uid : Int) (k platform : String) (now : Int) :
    ((share_achievement uid k platform now db).2 = .error ⟨404, "Achievement not found"⟩ ↔
      existsRecord db uid k = false) ∧
    (existsRecord db uid k = false → (share_achievement uid k platform now db).1 = db) ∧
    (∀ a, existsRecord db uid k = true → achievementsGet k = some a →
      (share_achievement uid k platform now db).2 = .ok ⟨true, some a.viral_text, some 5⟩ ∧
      ∃ ua ∈ (share_achievement uid k platform now db).1.user_achievements,
        matchesRec uid k ua = true ∧ ua.shared = true ∧
        ua.shared_platform = some platform ∧ ua.shared_at = some now) := by
  by_cases he : existsRecord db uid k
  · refine ⟨⟨?_, ?_⟩, ?_, ?_⟩
    · intro habs
      exfalso
      unfold share_achievement at habs
      rw [if_pos he] at habs
      cases hm : achievementsGet k <;> rw [hm] at habs <;> simp at habs
    · intro hf
      rw [he] at hf
      exact absurd hf (by decide)
    · intro hf
      rw [he] at hf
      exact absurd hf (by decide)
    · intro a _ hm
      constructor
      · unfold share_achievement
        rw [if_pos he, hm]
      · rw [share_achievement_fst, if_pos he]
        exact markSharedFirst_sets uid k platform now db.user_achievements he
  · have he2 : existsRecord db uid k = false := by
      simp only [Bool.not_eq_true] at he
      exact he
    have heq : share_achievement uid k platform now db =
        (db, .error ⟨404, "Achievement not found"⟩) := by
      unfold share_achievement
      rw [if_neg he]
    rw [heq]
    refine ⟨⟨fun _ => he2, fun _ => rfl⟩, fun _ => rfl, ?_⟩
    intro a ht _
    rw [he2] at ht
    exact absurd ht (by decide)

/-- C7 witness: sharing the unlocked first_booking of the example user
succeeds, sets the share fields and returns the catalog viral text with the
5 bonus points. -/
theorem share_achievement_spec_witness :
    existsRecord dbOneUnlock 7 "first_booking" = true ∧
    achievementsGet "first_booking" = some ⟨"First Steps",
      "Booked your first training session", 50, "🏆",
      "I just booked my first run via GIA! 🚀", none⟩ ∧
    ((share_achievement 7 "first_booking" "instagram" 99 dbOneUnlock).2 =
      .ok ⟨true, some "I just booked my first run via GIA! 🚀", some 5⟩ ∧
     ∃ ua ∈ (share_achievement 7 "first_booking" "instagram" 99 dbOneUnlock).1.user_achievements,
       matchesRec 7 "first_booking" ua = true ∧ ua.shared = true ∧
       ua.shared_platform = some "instagram" ∧ ua.shared_at = some 99) :=
  ⟨by decide, by decide,
    (share_achievement_spec dbOneUnlock 7 "first_booking" "instagram" 99).2.2
      ⟨"First Steps", "Booked your first training session", 50, "🏆",
        "I just booked my first run via GIA! 🚀", none⟩ (by decide) (by decide)⟩

/-- C9: check_achievements fails exactly when the user does not exist, the
failure is the 404 User-not-found error with the state returned unchanged
(the raise precedes every insert), and no other error value is possible. -/
theorem check_achievements_user_not_found (db : DB) (uid now : Int) :
    ((∃ e, (check_achievements uid now db).2 = .error e) ↔
      db.users.contains uid = false) ∧
    (db.users.contains uid = false →
      check_achievements uid now db = (db, .error ⟨404, "User not found"⟩)) ∧
    (∀ e, (check_achievements uid now db).2 = .error e → e = ⟨404, "User not found"⟩) := by
  by_cases hu : db.users.contains uid
  · rw [check_achievements_eq_evalUnlocks db uid now hu]
    refine ⟨⟨?_, ?_⟩, ?_, ?_⟩
    · rintro ⟨e, he⟩
      exact absurd he (by simp)
    · intro hf
      rw [hu] at hf
      exact absurd hf (by decide)
    · intro hf
      rw [hu] at hf
      exact absurd hf (by decide)
    · intro e he
      exact absurd he (by simp)
  · have hu2 : db.users.contains uid = false := by
      simp only [Bool.not_eq_true] at hu
      exact hu
    have heq : check_achievements uid now db = (db, .error ⟨404, "User not found"⟩) := by
      unfold check_achievements
      rw [if_neg hu]
    rw [heq]
    refine ⟨⟨fun _ => hu2, fun _ => ⟨⟨404, "User not found"⟩, rfl⟩⟩, fun _ => rfl, ?_⟩
    intro e he
    exact (Except.error.inj he).symm

/-- C9 witness: a missing user id fails with the 404 error and the state is
returned unchanged. -/
theorem check_achievements_user_not_found_witness :
    dbOneBooking.users.contains 8 = false ∧
    check_achievements 8 1000000 dbOneBooking =
      (dbOneBooking, .error ⟨404, "User not found"⟩) :=
  ⟨by decide, (check_achievements_user_not_found dbOneBooking 8 1000000).2.1 (by decide)⟩

/-- C8: the leaderboard endpoint ignores the ledger entirely — it returns the
fixed mock list with totals 450 and 380 for every database state, while the
spec-side ledger-derived total of user 1 in a ledger-free state is 0. -/
theorem leaderboard_is_mock :
    (get_achievement_leaderboard dbOneBooking).map LeaderboardEntry.total_points = [450, 380] ∧
    spec_totalPoints dbOneBooking 1 = 0 ∧
    (∀ db : DB, get_achievement_leaderboard db = get_achievement_leaderboard ⟨[], [], [], []⟩) :=
  ⟨rfl, rfl, fun _ => rfl⟩

end GoodRunss
